import Mathlib

/-!
Shallow embedding of the melody-maestro serverless proxy layer:
the Suno music generation endpoints (`api/ai-music/suno-music/index.ts`,
`wait.ts`, `wait-upload.ts`), the shared helpers (`api/_utils.ts`), and
the cover callback receiver.

Modelling conventions:
* JavaScript numbers appearing in request handling are modelled as an
  inductive `JsNumber` (NaN, the two infinities, or a finite rational);
  finite values are rationals.
* Decoded JSON bodies are modelled by structures whose fields are
  `Option`-typed; `none` stands for an absent (or wrongly typed) field.
  A failed `resp.json()` decode is `none` at the body level.
* HTTP fetch outcomes are records carrying the `ok` flag, the numeric
  status and the decoded body, exactly the three pieces the handlers
  consult.
* The poll loop is driven by a finite list of successive status-fetch
  outcomes.  Network time is abstracted to zero, so the elapsed clock
  advances by exactly the poll interval per iteration (the model under
  which the spec states its poll-count properties).  A run that
  exhausts the supplied list while budget remains is flagged with the
  explicit `outOfResponses` constructor; no theorem below ever relies
  on that case.
-/

namespace MelodyMaestro

/-- JavaScript number as seen by `Number(...)` / `Number.isFinite`. -/
inductive JsNumber where
  | nan : JsNumber
  | posInf : JsNumber
  | negInf : JsNumber
  | finite (q : ℚ) : JsNumber
deriving DecidableEq

/-- Mirror of `Number.isFinite`. -/
def JsNumber.isFinite : JsNumber → Bool
  | .finite _ => true
  | _ => false

/-- Constant `DEFAULT_TIMEOUT_MS` from `api/_utils.ts` (5 minutes). -/
def DEFAULT_TIMEOUT_MS : ℚ := 300000

/-- Constant `DEFAULT_POLL_INTERVAL_MS` from `api/_utils.ts`. -/
def DEFAULT_POLL_INTERVAL_MS : ℚ := 5000

/-- Function `parseTimeoutMs` from `wait.ts` / `wait-upload.ts`.  The query-string
extraction (`req.query?.timeoutMs ?? req.query?.timeout`, first array
element) and the `Number(...)` coercion are abstracted into the optional
`JsNumber` argument: `none` is an absent parameter, `some .nan` a
non-numeric one. -/
def parseTimeoutMs (raw : Option JsNumber) : ℚ :=
  match raw with
  | none => DEFAULT_TIMEOUT_MS
  | some j =>
    match j with
    | .finite n => if n ≤ 0 then DEFAULT_TIMEOUT_MS else min n (15 * 60 * 1000)
    | _ => DEFAULT_TIMEOUT_MS

/-- Function `parsePollIntervalMs` from `wait.ts` / `wait-upload.ts`: non-finite
or below-1000 input falls back to the default, everything else is capped
at 30000. -/
def parsePollIntervalMs (raw : Option JsNumber) : ℚ :=
  match raw with
  | none => DEFAULT_POLL_INTERVAL_MS
  | some j =>
    match j with
    | .finite n => if n < 1000 then DEFAULT_POLL_INTERVAL_MS else min n 30000
    | _ => DEFAULT_POLL_INTERVAL_MS

/-! ## Request validation (the zod `requestSchema` with its `superRefine`) -/

/-- Mirror of JavaScript `String.prototype.trim`: strip leading and
trailing whitespace.  Implemented over the character list so that it is
kernel-executable. -/
def jsTrim (s : String) : String :=
  String.mk (((s.data.dropWhile Char.isWhitespace).reverse.dropWhile Char.isWhitespace).reverse)

/-- The model enum `["V3_5", "V4", "V4_5", "V4_5PLUS", "V5"]`. -/
inductive SunoModel where
  | V3_5 | V4 | V4_5 | V4_5PLUS | V5
deriving DecidableEq

/-- Printable tag of a model, used in violation messages. -/
def SunoModel.tag : SunoModel → String
  | .V3_5 => "V3_5"
  | .V4 => "V4"
  | .V4_5 => "V4_5"
  | .V4_5PLUS => "V4_5PLUS"
  | .V5 => "V5"

/-- A request that already passed the base object schema: every field is
present with its declared type (zod fills the defaults). -/
structure GenerationRequest where
  customMode : Bool
  instrumental : Bool
  title : String
  style : String
  prompt : String
  model : SunoModel
  negativeTags : String
deriving DecidableEq

/-- The `superRefine` rule set shared by `index.ts`, `wait.ts` and
`wait-upload.ts`: returns the list of issue messages, in source order. -/
def validateIssues (v : GenerationRequest) : List String :=
  if v.customMode = false then
    (if jsTrim v.prompt = "" then ["prompt is required when customMode=false"] else []) ++
    (if v.prompt.length > 400 then ["prompt max length is 400 when customMode=false"] else [])
  else
    (if jsTrim v.title = "" then ["title is required when customMode=true"] else []) ++
    (if jsTrim v.style = "" then ["style is required when customMode=true"] else []) ++
    (if v.instrumental = false ∧ jsTrim v.prompt = "" then
      ["prompt is required when customMode=true and instrumental=false"] else []) ++
    (if v.title.length > 80 then ["title max length is 80"] else []) ++
    (let isV35orV4 := v.model = SunoModel.V3_5 ∨ v.model = SunoModel.V4
     let promptLimit : ℕ := if isV35orV4 then 3000 else 5000
     let styleLimit : ℕ := if isV35orV4 then 200 else 1000
     (if v.prompt.length > promptLimit then
       ["prompt max length is " ++ toString promptLimit ++ " for model " ++ v.model.tag] else []) ++
     (if v.style.length > styleLimit then
       ["style max length is " ++ toString styleLimit ++ " for model " ++ v.model.tag] else []))

/-- Outcome of `safeParse` success for an already-typed record: no refine issue. -/
def validationPasses (v : GenerationRequest) : Bool :=
  validateIssues v = []

/-! ## Job launch (`index.ts` handler and the start step of `wait.ts` /
`wait-upload.ts`) -/

/-- Constant `PAXSENIX_BASE_URL` from `api/_utils.ts`. -/
def PAXSENIX_BASE_URL : String := "https://api.paxsenix.org"

/-- Decoded body of the job-creation response, keeping the two fields the
handlers read.  `none` in a field models an absent or wrongly typed key. -/
structure StartBody where
  jobId : Option String
  task_url : Option String
deriving DecidableEq

/-- Outcome of the job-creation `fetch`: the `ok` flag, the HTTP status
and the decoded JSON body (`none` when `resp.json()` rejected). -/
structure StartFetch where
  ok : Bool
  status : ℕ
  body : Option StartBody
deriving DecidableEq

/-- JavaScript truthiness of `startJson?.jobId`: present and non-empty. -/
def jobIdTruthy (b : Option StartBody) : Bool :=
  match b with
  | some s =>
    match s.jobId with
    | some j => decide (j ≠ "")
    | none => false
  | none => false

/-- The jobId string extracted in the launched branch. -/
def jobIdString (b : Option StartBody) : String :=
  (b.bind (fun s => s.jobId)).getD ("")

/-- Mirror of `startJson.task_url || PAXSENIX_BASE_URL/task/jobId`: the upstream
poll address when truthy, otherwise the synthesized one. -/
def taskUrlOf (b : Option StartBody) (jobId : String) : String :=
  match b.bind (fun s => s.task_url) with
  | some t => if t = "" then PAXSENIX_BASE_URL ++ "/task/" ++ jobId else t
  | none => PAXSENIX_BASE_URL ++ "/task/" ++ jobId

/-- Result of the start step of `wait.ts` / `wait-upload.ts`
(`if (!startResp.ok || !startJson?.jobId) return 502 ...`). -/
inductive StartStep where
  | launchFailed (status : ℕ) (upstream : Option StartBody)
  | launched (jobId : String) (taskUrl : String)
deriving DecidableEq

/-- Start step of the wait flows: 502 upstream error unless the HTTP
status was 2xx and the decoded body carries a truthy `jobId`. -/
def startJobStep (r : StartFetch) : StartStep :=
  if r.ok = false ∨ jobIdTruthy r.body = false then
    StartStep.launchFailed r.status r.body
  else
    StartStep.launched (jobIdString r.body) (taskUrlOf r.body (jobIdString r.body))

/-- Response of the plain generate handler (`index.ts`) after the
upstream fetch: 502 with status and raw body when `!upstream.ok`,
otherwise 200 forwarding the decoded body. -/
inductive GenerateResp where
  | upstreamErr (status : ℕ) (upstream : Option StartBody)
  | success (data : Option StartBody)
deriving DecidableEq

/-- Handler core of `index.ts` lines 123-133: the only success condition is `upstream.ok`. -/
def generateRespond (r : StartFetch) : ℕ × GenerateResp :=
  if r.ok = false then (502, GenerateResp.upstreamErr r.status r.body)
  else (200, GenerateResp.success r.body)

/-! ## Status polling (`wait.ts` lines 144-177, `wait-upload.ts` 228-308) -/

/-- One result record of a done job (`PaxRecord` in `wait-upload.ts`).
`audio_url = none` models an absent or non-string field. -/
structure PaxRecord where
  id : Option String
  audio_url : Option String
  image_url : Option String
  duration : Option ℚ
deriving DecidableEq

/-- Decoded status body: the fields the handlers read
(`statusJson?.status`, `statusJson?.ok`, `statusJson?.records`). -/
structure StatusBody where
  status : Option String
  ok : Option Bool
  records : Option (List PaxRecord)
deriving DecidableEq

/-- One status `fetch` outcome: HTTP `ok` flag, status code, decoded
body (`none` when `resp.json()` rejected). -/
structure StatusFetch where
  ok : Bool
  status : ℕ
  body : Option StatusBody
deriving DecidableEq

/-- The loop's terminal test on a decoded body:
`statusJson?.status === "done" && statusJson?.ok === true`. -/
def isTerminalBody (b : Option StatusBody) : Bool :=
  match b with
  | some s => decide (s.status = some ("done") ∧ s.ok = some true)
  | none => false

/-- Result of a finite poll-loop run.  `success` and `timeout` carry the
number of status polls performed (ghost instrumentation); `timeout`
carries the last decoded body.  `outOfResponses` marks a run whose
supplied response trace was shorter than the loop wanted — a model
artifact, never produced under the hypotheses of the theorems below. -/
inductive PollResult where
  | success (polls : ℕ) (body : StatusBody)
  | timeout (polls : ℕ) (last : Option StatusBody)
  | outOfResponses (polls : ℕ) (last : Option StatusBody)
deriving DecidableEq

/-- The poll loop of `wait.ts` / `wait-upload.ts`.  `elapsed` is the
clock at the loop-condition check (network time abstracted to zero, so
each iteration advances it by exactly `interval`); `count` counts the
polls already made and `last` is the running `last = statusJson`.
Note the loop reads only `r.body` (the decoded JSON) from a status
fetch: the HTTP status is never consulted, and a decode failure is just
recorded as `last = none` before the next sleep. -/
def pollGo (timeoutMs interval : ℚ) :
    List StatusFetch → ℚ → ℕ → Option StatusBody → PollResult
  | [], elapsed, count, last =>
    if elapsed < timeoutMs then PollResult.outOfResponses count last
    else PollResult.timeout count last
  | r :: rest, elapsed, count, last =>
    if elapsed < timeoutMs then
      if isTerminalBody r.body then
        PollResult.success (count + 1) ((r.body).getD ⟨none, none, none⟩)
      else
        pollGo timeoutMs interval rest (elapsed + interval) (count + 1) r.body
    else
      PollResult.timeout count last

/-- Entry point of the loop: clock 0, no poll yet, `last = null`. -/
def pollLoop (timeoutMs interval : ℚ) (resps : List StatusFetch) : PollResult :=
  pollGo timeoutMs interval resps 0 0 none

/-- Mirror of `last?.status ?? "unknown"` in the 408 body. -/
def lastStatusString (last : Option StatusBody) : String :=
  match last with
  | some s => s.status.getD ("unknown")
  | none => "unknown"

/-- Body of the 408 timeout response of `wait.ts` (lines 166-177). -/
structure WaitTimeoutBody where
  ok : Bool
  status : String
  message : String
  jobId : String
  task_url : String
  lastResponse : Option StatusBody
deriving DecidableEq

/-- Final response of the wait flow, as a function of the poll-loop
result.  The `incomplete` constructor mirrors `PollResult.outOfResponses`
(model artifact, unreachable under the theorems' hypotheses). -/
inductive WaitResponse where
  | success (body : StatusBody)
  | timeoutErr (body : WaitTimeoutBody)
  | incomplete (polls : ℕ) (last : Option StatusBody)
deriving DecidableEq

/-- Response assembly of `wait.ts` lines 159-177: 200 with the full decoded body on success,
408 with `{ok:false, status, message, jobId, task_url, lastResponse}`
on timeout. -/
def waitFinish (jobId taskUrl : String) (pr : PollResult) : ℕ × WaitResponse :=
  match pr with
  | PollResult.success _ s => (200, WaitResponse.success s)
  | PollResult.timeout _ last =>
    (408, WaitResponse.timeoutErr
      { ok := false
        status := lastStatusString last
        message := "Timeout waiting for music generation to finish"
        jobId := jobId
        task_url := taskUrl
        lastResponse := last })
  | PollResult.outOfResponses n last => (0, WaitResponse.incomplete n last)

/-! ## KIE re-hosting upload (`wait-upload.ts` lines 126-159 and 244-291,
and the cover callback receiver) -/

/-- Nested `data` object of a KIE upload response. -/
structure KieUploadData where
  fileName : Option String
  filePath : Option String
  downloadUrl : Option String
  fileSize : Option ℚ
  mimeType : Option String
  uploadedAt : Option String
deriving DecidableEq

/-- Decoded KIE upload response body (`KieUploadResult` in the source). -/
structure KieUploadResult where
  success : Option Bool
  code : Option ℚ
  msg : Option String
  data : Option KieUploadData
deriving DecidableEq

/-- Outcome of the KIE upload `fetch`: `ok` flag, status, decoded body. -/
structure KieFetch where
  ok : Bool
  status : ℕ
  body : Option KieUploadResult
deriving DecidableEq

/-- Return value of `kieUploadFromUrl` in `wait-upload.ts`: an error
record carrying the upstream status and body on non-2xx, otherwise the
decoded result. -/
inductive KieUpRes where
  | err (status : ℕ) (upstream : Option KieUploadResult)
  | ok (result : Option KieUploadResult)
deriving DecidableEq

/-- Mirror of the `kieUploadFromUrl` helper of `wait-upload.ts`, response handling part: the
request assembly is abstracted into the `KieFetch` outcome. -/
def kieUploadFromUrl (f : KieFetch) : KieUpRes :=
  if f.ok = false then KieUpRes.err f.status f.body else KieUpRes.ok f.body

/-- Mirror of `bytesToMb`: `Math.round(bytes / 1024 / 1024 * 100) / 100`
(JS `Math.round` rounds half toward positive infinity, as does
Mathlib's `round`). -/
def bytesToMb (bytes : ℚ) : ℚ :=
  (round (bytes / 1024 / 1024 * 100) : ℤ) / 100

/-- Mirror of `Number(up.result?.data?.fileSize ?? 0)`. -/
def bytesOfResult (r : Option KieUploadResult) : ℚ :=
  ((r.bind (fun x => x.data)).bind (fun d => d.fileSize)).getD 0

/-- The `kie` object embedded in a successful per-record upload entry. -/
structure KieInfo where
  downloadUrl : Option String
  fileSizeBytes : ℚ
  fileSizeMB : ℚ
  mimeType : Option String
  fileName : Option String
  filePath : Option String
  uploadedAt : Option String
deriving DecidableEq

/-- One entry of the `kieUploads` array of the wait-upload flow:
`{ok:false, message:"missing audio_url", recordIndex}`,
`{ok:false, recordIndex, uploadError:{status, upstream}}`, or
`{ok:true, recordIndex, sourceAudioUrl, kie}`. -/
inductive UploadEntry where
  | failMissing (message : String) (recordIndex : ℕ)
  | failUpload (recordIndex : ℕ) (status : ℕ) (upstream : Option KieUploadResult)
  | success (recordIndex : ℕ) (sourceAudioUrl : String) (kie : KieInfo)
deriving DecidableEq

/-- Mirror of `typeof r?.audio_url === "string" ? r.audio_url : ""`. -/
def audioUrlOf (r : PaxRecord) : String :=
  r.audio_url.getD ("")

/-- Per-record body of the `records.map(async (r, idx) => ...)` fan-out
in `wait-upload.ts` lines 248-279.  `env idx` is the outcome of the KIE
upload request issued for record `idx` (request assembly abstracted). -/
def uploadRecord (env : ℕ → KieFetch) (idx : ℕ) (r : PaxRecord) : UploadEntry :=
  let audioUrl := audioUrlOf r
  if audioUrl = "" then
    UploadEntry.failMissing ("missing audio_url") idx
  else
    match kieUploadFromUrl (env idx) with
    | KieUpRes.err st up => UploadEntry.failUpload idx st up
    | KieUpRes.ok result =>
      let bytes := bytesOfResult result
      UploadEntry.success idx audioUrl
        { downloadUrl := (result.bind (fun x => x.data)).bind (fun d => d.downloadUrl)
          fileSizeBytes := bytes
          fileSizeMB := if bytes ≠ 0 then bytesToMb bytes else 0
          mimeType := (result.bind (fun x => x.data)).bind (fun d => d.mimeType)
          fileName := (result.bind (fun x => x.data)).bind (fun d => d.fileName)
          filePath := (result.bind (fun x => x.data)).bind (fun d => d.filePath)
          uploadedAt := (result.bind (fun x => x.data)).bind (fun d => d.uploadedAt) }

/-- The full batch: `await Promise.all(records.map(...))`.  `Promise.all`
joins in input order, so the result list is indexed exactly like
`records`. -/
def batchUploads (env : ℕ → KieFetch) (records : List PaxRecord) : List UploadEntry :=
  records.mapIdx (fun idx r => uploadRecord env idx r)

/-- Mirror of `Array.isArray(statusJson?.records) ? statusJson.records : []`. -/
def recordsOf (s : StatusBody) : List PaxRecord :=
  s.records.getD []

/-- Body of the 200 success response of the wait-upload flow:
`{...statusJson, jobId, task_url, kieUploads}`. -/
structure WaitUploadSuccessBody where
  statusBody : StatusBody
  jobId : String
  task_url : String
  kieUploads : List UploadEntry
deriving DecidableEq

/-- Success path of `wait-upload.ts` lines 243-291: once the poll loop observes a
successful done body, re-host every record and respond 200 regardless
of the individual upload outcomes. -/
def waitUploadRespond (env : ℕ → KieFetch) (jobId taskUrl : String)
    (s : StatusBody) : ℕ × WaitUploadSuccessBody :=
  (200,
    { statusBody := s
      jobId := jobId
      task_url := taskUrl
      kieUploads := batchUploads env (recordsOf s) })

/-! ## Cover callback receiver (`src/unnamed/part_002`) -/

/-- One item of the callback payload's `data.data` array. -/
structure CoverItem where
  id : Option String
  audio_url : Option String
  image_url : Option String
  title : Option String
  prompt : Option String
  duration : Option ℚ
deriving DecidableEq

/-- The nested `data` object of the callback envelope. -/
structure CoverCallbackData where
  callbackType : Option String
  task_id : Option String
  data : Option (List CoverItem)
deriving DecidableEq

/-- The callback envelope (`callbackSchema`), after schema validation. -/
structure CoverEnvelope where
  code : Option ℚ
  msg : Option String
  data : Option CoverCallbackData
deriving DecidableEq

/-- Mirror of `payload.data?.callbackType`. -/
def callbackTypeOf (p : CoverEnvelope) : Option String :=
  p.data.bind (fun d => d.callbackType)

/-- Mirror of `payload.data?.data ?? []`. -/
def coverItems (p : CoverEnvelope) : List CoverItem :=
  (p.data.bind (fun d => d.data)).getD []

/-- The arguments of a `kieUploadFromUrl` call made by the receiver. -/
structure UploadCall where
  fileUrl : String
  uploadPath : String
  fileName : String
deriving DecidableEq

/-- The upload call the receiver makes, if any (`part_002` lines
93-102): gated on `code === 200`, `callbackType === "complete"`, a
non-empty item list, and a truthy `audio_url` on the first item; uses
the fixed path and the `{task_id}-{id}.mp3` filename with `"task"` /
`"track"` fallbacks. -/
def coverUploadCall (p : CoverEnvelope) : Option UploadCall :=
  if p.code = some 200 ∧ callbackTypeOf p = some ("complete") ∧ coverItems p ≠ [] then
    match coverItems p with
    | [] => none
    | first :: _ =>
      match first.audio_url with
      | some u =>
        if u = "" then none
        else
          some
            { fileUrl := u
              uploadPath := "music/cover-audio"
              fileName :=
                (p.data.bind (fun d => d.task_id)).getD ("task") ++ "-" ++
                  first.id.getD ("track") ++ ".mp3" }
      | none => none
  else none

/-- Return value of the receiver's local `kieUploadFromUrl`
(`part_002` line 64): always `{ok, status, upstream}`, no branching. -/
structure CoverKieUp where
  ok : Bool
  status : ℕ
  upstream : Option KieUploadResult
deriving DecidableEq

/-- The cover variant of `kieUploadFromUrl`, response handling part. -/
def coverKieUploadFromUrl (f : KieFetch) : CoverKieUp :=
  { ok := f.ok, status := f.status, upstream := f.body }

/-- The `uploaded` value embedded in the receiver's response: the
success record, or `{ok:false, uploadError}`. -/
inductive CoverUploaded where
  | done (sourceAudioUrl : String) (downloadUrl : Option String)
      (fileSizeBytes fileSizeMB : ℚ) (mimeType fileName filePath uploadedAt : Option String)
  | failed (uploadError : CoverKieUp)
deriving DecidableEq

/-- Body of the receiver's acknowledgment:
`{ok:true, received, kieUploadedFirstTrack}`. -/
structure CoverRespBody where
  ok : Bool
  received : CoverEnvelope
  kieUploadedFirstTrack : Option CoverUploaded
deriving DecidableEq

/-- The receiver's handler (`part_002` lines 87-131) after schema
validation: decide the upload call, perform it through the environment
outcome `env`, and always acknowledge with HTTP 200 carrying the upload
result (or failure) inline. -/
def coverHandler (env : KieFetch) (p : CoverEnvelope) : ℕ × CoverRespBody :=
  match coverUploadCall p with
  | none => (200, { ok := true, received := p, kieUploadedFirstTrack := none })
  | some c =>
    let up := coverKieUploadFromUrl env
    if up.ok then
      let bytes := bytesOfResult up.upstream
      (200,
        { ok := true
          received := p
          kieUploadedFirstTrack :=
            some (CoverUploaded.done c.fileUrl
              ((up.upstream.bind (fun x => x.data)).bind (fun d => d.downloadUrl))
              bytes
              (if bytes ≠ 0 then bytesToMb bytes else 0)
              ((up.upstream.bind (fun x => x.data)).bind (fun d => d.mimeType))
              ((up.upstream.bind (fun x => x.data)).bind (fun d => d.fileName))
              ((up.upstream.bind (fun x => x.data)).bind (fun d => d.filePath))
              ((up.upstream.bind (fun x => x.data)).bind (fun d => d.uploadedAt))) })
    else
      (200,
        { ok := true
          received := p
          kieUploadedFirstTrack := some (CoverUploaded.failed up) })

/-! ## Concrete fixtures used by witnesses and counterexamples -/

/-- A decoded body reporting a still-pending job. -/
def pendingBody : StatusBody :=
  { status := some ("pending"), ok := none, records := none }

/-- A decoded body reporting a processing job. -/
def processingBody : StatusBody :=
  { status := some ("processing"), ok := none, records := none }

/-- A decoded body reporting done with the explicit success flag. -/
def doneOkBody : StatusBody :=
  { status := some ("done"), ok := some true, records := none }

/-- A 200 status fetch carrying the pending body. -/
def pendingFetch : StatusFetch := { ok := true, status := 200, body := some pendingBody }

/-- A 200 status fetch carrying the processing body. -/
def processingFetch : StatusFetch := { ok := true, status := 200, body := some processingBody }

/-- A 200 status fetch carrying the successful done body. -/
def doneOkFetch : StatusFetch := { ok := true, status := 200, body := some doneOkBody }

/-- A non-2xx status fetch whose body also failed to decode. -/
def brokenFetch : StatusFetch := { ok := false, status := 500, body := none }

/-- A non-custom request with a plain prompt. -/
def simpleReq : GenerationRequest :=
  { customMode := false, instrumental := false, title := "", style := "",
    prompt := "lofi chill beat", model := SunoModel.V5, negativeTags := "" }

/-- The same prompt as `simpleReq` with every ignored field changed. -/
def simpleReqVariant : GenerationRequest :=
  { customMode := false, instrumental := true, title := "T", style := "S",
    prompt := "lofi chill beat", model := SunoModel.V4, negativeTags := "x" }

/-- A non-custom request whose prompt is a single space: non-empty, yet
blank after trimming. -/
def blankPromptReq : GenerationRequest :=
  { customMode := false, instrumental := false, title := "", style := "",
    prompt := " ", model := SunoModel.V5, negativeTags := "" }

/-- A result record with an audio URL. -/
def rec1 : PaxRecord :=
  { id := some ("a"), audio_url := some ("https://cdn/1.mp3"), image_url := none, duration := none }

/-- Another result record with an audio URL. -/
def rec3 : PaxRecord :=
  { id := some ("c"), audio_url := some ("https://cdn/3.mp3"), image_url := none, duration := none }

/-- A result record whose `audio_url` is absent. -/
def recNoUrl : PaxRecord :=
  { id := some ("b"), audio_url := none, image_url := none, duration := none }

/-- A successful KIE upload outcome carrying a download URL. -/
def kieOkFetch : KieFetch :=
  { ok := true, status := 200,
    body := some
      { success := some true, code := some 200, msg := none,
        data := some
          { fileName := some ("f.mp3"), filePath := some ("music/paxsenix/f.mp3"),
            downloadUrl := some ("https://kie/dl/f.mp3"), fileSize := none,
            mimeType := some ("audio/mpeg"), uploadedAt := none } } }

/-- A failed KIE upload outcome (HTTP 500, body not decodable). -/
def kieFailFetch : KieFetch := { ok := false, status := 500, body := none }

/-- An upload environment failing exactly at record index 1. -/
def envFailAt1 : ℕ → KieFetch := fun i => if i = 1 then kieFailFetch else kieOkFetch

/-- An upload environment succeeding everywhere. -/
def envAllOk : ℕ → KieFetch := fun _ => kieOkFetch

/-- An upload environment failing everywhere. -/
def envAllFail : ℕ → KieFetch := fun _ => kieFailFetch

/-- A cover result item with an audio URL. -/
def coverItemT1 : CoverItem :=
  { id := some ("t1"), audio_url := some ("https://x/a.mp3"), image_url := none,
    title := none, prompt := none, duration := none }

/-- A cover result item without an audio URL. -/
def coverItemNoAudio : CoverItem :=
  { id := some ("t1"), audio_url := none, image_url := none,
    title := none, prompt := none, duration := none }

/-- A complete-callback envelope whose first item has an audio URL. -/
def coverCompleteEnv : CoverEnvelope :=
  { code := some 200, msg := none,
    data := some
      { callbackType := some ("complete"), task_id := some ("task-9"),
        data := some [coverItemT1] } }

/-- A text-callback envelope (no upload expected). -/
def coverTextEnv : CoverEnvelope :=
  { code := some 200, msg := none,
    data := some
      { callbackType := some ("text"), task_id := some ("task-9"),
        data := some [coverItemT1] } }

/-- A complete-callback envelope whose only item lacks an audio URL. -/
def coverNoAudioEnv : CoverEnvelope :=
  { code := some 200, msg := none,
    data := some
      { callbackType := some ("complete"), task_id := some ("task-9"),
        data := some [coverItemNoAudio] } }

/-! ## Helper lemmas about the poll loop -/

/-- Budget already spent: the loop answers timeout at once. -/
theorem pollGo_budget_spent (timeoutMs interval : ℚ) (resps : List StatusFetch)
    (elapsed : ℚ) (count : ℕ) (last : Option StatusBody) (h : ¬ elapsed < timeoutMs) :
    pollGo timeoutMs interval resps elapsed count last = PollResult.timeout count last := by
  cases resps <;> simp [pollGo, h]

/-- A non-terminal response is polled past: the loop sleeps and goes on
with the decoded body as the new last-seen value. -/
theorem pollGo_cons_nonterminal (timeoutMs interval : ℚ) (r : StatusFetch)
    (rest : List StatusFetch) (elapsed : ℚ) (count : ℕ) (last : Option StatusBody)
    (h : elapsed < timeoutMs) (hr : isTerminalBody r.body = false) :
    pollGo timeoutMs interval (r :: rest) elapsed count last =
      pollGo timeoutMs interval rest (elapsed + interval) (count + 1) r.body := by
  simp [pollGo, h, hr]

/-- A successful done response returns immediately with its body. -/
theorem pollGo_cons_terminal (timeoutMs interval : ℚ) (r : StatusFetch)
    (rest : List StatusFetch) (elapsed : ℚ) (count : ℕ) (last : Option StatusBody)
    (s : StatusBody) (h : elapsed < timeoutMs) (hb : r.body = some s)
    (ht : isTerminalBody r.body = true) :
    pollGo timeoutMs interval (r :: rest) elapsed count last =
      PollResult.success (count + 1) s := by
  have ht2 : isTerminalBody (some s) = true := by rw [← hb]; exact ht
  simp [pollGo, h, hb, ht2]

/-- Success can only be produced by a decoded body with `status "done"`
and `ok` strictly `true`. -/
theorem pollGo_success_done (timeoutMs interval : ℚ) :
    ∀ (resps : List StatusFetch) (elapsed : ℚ) (count : ℕ) (last : Option StatusBody)
      (n : ℕ) (s : StatusBody),
      pollGo timeoutMs interval resps elapsed count last = PollResult.success n s →
      s.status = some ("done") ∧ s.ok = some true := by
  intro resps
  induction resps with
  | nil =>
    intro elapsed count last n s h
    by_cases hc : elapsed < timeoutMs <;> simp [pollGo, hc] at h
  | cons r rest ih =>
    intro elapsed count last n s h
    by_cases hc : elapsed < timeoutMs
    · by_cases ht : isTerminalBody r.body = true
      · cases hb : r.body with
        | none => rw [hb] at ht; simp [isTerminalBody] at ht
        | some s0 =>
          rw [pollGo_cons_terminal timeoutMs interval r rest elapsed count last s0 hc hb ht] at h
          cases h
          rw [hb] at ht
          simpa [isTerminalBody] using ht
      · rw [pollGo_cons_nonterminal timeoutMs interval r rest elapsed count last hc
          (by simpa using ht)] at h
        exact ih _ _ _ n s h
    · rw [pollGo_budget_spent timeoutMs interval _ _ _ _ hc] at h
      cases h

/-- When every supplied response is non-terminal and the trace is long
enough, the loop times out after exactly the ceiling of
budget / interval polls, with the last polled decoded body as the
last-seen value. -/
theorem pollGo_timeout_spec (timeoutMs interval : ℚ) (hI : 0 < interval) :
    ∀ (resps : List StatusFetch) (elapsed : ℚ) (count : ℕ) (last : Option StatusBody),
      (∀ r ∈ resps, isTerminalBody r.body = false) →
      (⌈(timeoutMs - elapsed) / interval⌉.toNat ≤ resps.length) →
      pollGo timeoutMs interval resps elapsed count last =
        PollResult.timeout (count + ⌈(timeoutMs - elapsed) / interval⌉.toNat)
          (((resps.take ⌈(timeoutMs - elapsed) / interval⌉.toNat).map
              (fun r => r.body)).getLastD last) := by
  intro resps
  induction resps with
  | nil =>
    intro elapsed count last _ hlen
    have hn : ⌈(timeoutMs - elapsed) / interval⌉.toNat = 0 := by
      simpa using hlen
    have hc : ¬ elapsed < timeoutMs := by
      intro hc
      have hpos : 0 < ⌈(timeoutMs - elapsed) / interval⌉ :=
        Int.ceil_pos.mpr (div_pos (by linarith) hI)
      omega
    rw [pollGo_budget_spent timeoutMs interval _ _ _ _ hc, hn]
    simp
  | cons r rest ih =>
    intro elapsed count last hnt hlen
    by_cases hc : elapsed < timeoutMs
    · have hr : isTerminalBody r.body = false := hnt r (List.mem_cons_self r rest)
      have hpos : 0 < ⌈(timeoutMs - elapsed) / interval⌉ :=
        Int.ceil_pos.mpr (div_pos (by linarith) hI)
      have hstep : (timeoutMs - (elapsed + interval)) / interval =
          (timeoutMs - elapsed) / interval - 1 := by
        field_simp
        ring
      have hceil : ⌈(timeoutMs - (elapsed + interval)) / interval⌉ =
          ⌈(timeoutMs - elapsed) / interval⌉ - 1 := by
        rw [hstep, Int.ceil_sub_one]
      rw [pollGo_cons_nonterminal timeoutMs interval r rest elapsed count last hc hr]
      rw [ih (elapsed + interval) (count + 1) r.body
        (fun x hx => hnt x (List.mem_cons_of_mem r hx)) (by rw [hceil]; simp at hlen; omega)]
      have hnat : ⌈(timeoutMs - elapsed) / interval⌉.toNat =
          ⌈(timeoutMs - (elapsed + interval)) / interval⌉.toNat + 1 := by
        rw [hceil]; omega
      rw [hnat]
      rw [List.take_succ_cons, List.map_cons, List.getLastD_cons]
      congr 1
      omega
    · have hn : ⌈(timeoutMs - elapsed) / interval⌉.toNat = 0 := by
        have : ⌈(timeoutMs - elapsed) / interval⌉ ≤ 0 := by
          apply Int.ceil_le.mpr
          have : (timeoutMs - elapsed) / interval ≤ 0 :=
            div_nonpos_iff.mpr (Or.inr ⟨by linarith, le_of_lt hI⟩)
          simpa using this
        omega
      rw [pollGo_budget_spent timeoutMs interval _ _ _ _ hc, hn]
      simp

/-! ## Claim C1 -/

/-- C1 (amended): in the poll loop of the wait and wait-upload flows a
status response that fails to decode as JSON, or has a non-2xx HTTP
status, is never mapped to an upstream-error result.  The loop consults
only the decoded bodies (part 1: its outcome is invariant under
changing the HTTP `ok` flags and status codes of the responses), and a
response whose decode failed is treated exactly like a still-pending
state: the loop records `null` as last-seen and polls on (part 2). -/
theorem C1_poll_ignores_http_errors :
    (∀ (timeoutMs interval : ℚ) (resps resps2 : List StatusFetch) (elapsed : ℚ)
       (count : ℕ) (last : Option StatusBody),
       resps.map (fun r => r.body) = resps2.map (fun r => r.body) →
       pollGo timeoutMs interval resps elapsed count last =
         pollGo timeoutMs interval resps2 elapsed count last) ∧
    (∀ (timeoutMs interval : ℚ) (r : StatusFetch) (rest : List StatusFetch)
       (elapsed : ℚ) (count : ℕ) (last : Option StatusBody),
       elapsed < timeoutMs → r.body = none →
       pollGo timeoutMs interval (r :: rest) elapsed count last =
         pollGo timeoutMs interval rest (elapsed + interval) (count + 1) none) := by
  constructor
  · intro timeoutMs interval resps
    induction resps with
    | nil =>
      intro resps2 elapsed count last h
      cases resps2 with
      | nil => rfl
      | cons r2 rest2 => simp at h
    | cons r rest ih =>
      intro resps2 elapsed count last h
      cases resps2 with
      | nil => simp at h
      | cons r2 rest2 =>
        simp only [List.map_cons, List.cons.injEq] at h
        obtain ⟨hb, ht⟩ := h
        by_cases hc : elapsed < timeoutMs
        · by_cases hterm : isTerminalBody r.body = true
          · rw [pollGo, pollGo, if_pos hc, if_pos hc, hb] at *
            rw [hb] at hterm
            simp [hterm]
          · have hterm2 : isTerminalBody r2.body = false := by
              rw [← hb]; simpa using hterm
            rw [pollGo_cons_nonterminal timeoutMs interval r rest elapsed count last hc
              (by simpa using hterm)]
            rw [pollGo_cons_nonterminal timeoutMs interval r2 rest2 elapsed count last hc hterm2]
            rw [hb]
            exact ih rest2 _ _ _ ht
        · rw [pollGo_budget_spent timeoutMs interval _ _ _ _ hc,
            pollGo_budget_spent timeoutMs interval _ _ _ _ hc]
  · intro timeoutMs interval r rest elapsed count last hc hb
    rw [pollGo_cons_nonterminal timeoutMs interval r rest elapsed count last hc
      (by simp [hb, isTerminalBody])]
    rw [hb]

/-- Witness for C1: concrete instantiations of both parts. -/
theorem C1_poll_ignores_http_errors_witness :
    (pollGo 300000 5000 [{ ok := false, status := 500, body := none }] 0 0 none =
       pollGo 300000 5000 [{ ok := true, status := 200, body := none }] 0 0 none) ∧
    (pollGo 300000 5000 [{ ok := false, status := 500, body := none }] 0 0 none =
       pollGo 300000 5000 [] (0 + 5000) (0 + 1) none) :=
  ⟨C1_poll_ignores_http_errors.1 300000 5000 _ _ 0 0 none rfl,
   C1_poll_ignores_http_errors.2 300000 5000
     { ok := false, status := 500, body := none } [] 0 0 none (by norm_num) rfl⟩

/-- Counterexample to C1 as stated: a first status response that is
non-2xx and fails to decode is polled past silently, and the run then
returns success from the second response — no upstream-error result is
ever produced for it. -/
theorem C1_counterexample :
    pollLoop 300000 5000
      [{ ok := false, status := 500, body := none },
       { ok := true, status := 200,
         body := some { status := some ("done"), ok := some true, records := none } }] =
      PollResult.success 2 { status := some ("done"), ok := some true, records := none } := by
  norm_num [pollLoop, pollGo, isTerminalBody]

/-! ## Claim C2 -/

/-- C2 (amended): clamping of the polling query parameters.
A `timeoutMs` that is absent, non-numeric, zero or negative yields the
default 300000, and values above the ceiling are clamped to 900000.
A `pollIntervalMs` that is absent or non-numeric yields the default
5000, values above the ceiling are clamped to 30000, and — amendment —
a value below the floor 1000 also falls back to the default 5000 (it is
not clamped up to the floor).  No input produces an error: every input
yields a timeout in (0, 900000] and an interval in [1000, 30000]. -/
theorem C2_clamping :
    (parseTimeoutMs none = 300000) ∧
    (∀ q : ℚ, q ≤ 0 → parseTimeoutMs (some (JsNumber.finite q)) = 300000) ∧
    (∀ j : JsNumber, j.isFinite = false → parseTimeoutMs (some j) = 300000) ∧
    (∀ q : ℚ, 900000 ≤ q → parseTimeoutMs (some (JsNumber.finite q)) = 900000) ∧
    (parsePollIntervalMs none = 5000) ∧
    (∀ q : ℚ, q < 1000 → parsePollIntervalMs (some (JsNumber.finite q)) = 5000) ∧
    (∀ j : JsNumber, j.isFinite = false → parsePollIntervalMs (some j) = 5000) ∧
    (∀ q : ℚ, 30000 ≤ q → parsePollIntervalMs (some (JsNumber.finite q)) = 30000) ∧
    (∀ raw : Option JsNumber,
       0 < parseTimeoutMs raw ∧ parseTimeoutMs raw ≤ 900000 ∧
       1000 ≤ parsePollIntervalMs raw ∧ parsePollIntervalMs raw ≤ 30000) := by
  refine ⟨by norm_num [parseTimeoutMs, DEFAULT_TIMEOUT_MS], ?_, ?_, ?_,
    by norm_num [parsePollIntervalMs, DEFAULT_POLL_INTERVAL_MS], ?_, ?_, ?_, ?_⟩
  · intro q hq
    simp [parseTimeoutMs, DEFAULT_TIMEOUT_MS, hq]
  · intro j hj
    cases j <;> simp_all [parseTimeoutMs, DEFAULT_TIMEOUT_MS, JsNumber.isFinite]
  · intro q hq
    have h2 : ¬ q ≤ 0 := by linarith
    simp only [parseTimeoutMs, if_neg h2]
    rw [min_eq_right (by linarith)]
    norm_num
  · intro q hq
    simp [parsePollIntervalMs, DEFAULT_POLL_INTERVAL_MS, hq]
  · intro j hj
    cases j <;> simp_all [parsePollIntervalMs, DEFAULT_POLL_INTERVAL_MS, JsNumber.isFinite]
  · intro q hq
    have h2 : ¬ q < 1000 := by linarith
    simp only [parsePollIntervalMs, if_neg h2]
    exact min_eq_right hq
  · intro raw
    have htt : 0 < parseTimeoutMs raw ∧ parseTimeoutMs raw ≤ 900000 := by
      match raw with
      | none => norm_num [parseTimeoutMs, DEFAULT_TIMEOUT_MS]
      | some (JsNumber.nan) => norm_num [parseTimeoutMs, DEFAULT_TIMEOUT_MS]
      | some (JsNumber.posInf) => norm_num [parseTimeoutMs, DEFAULT_TIMEOUT_MS]
      | some (JsNumber.negInf) => norm_num [parseTimeoutMs, DEFAULT_TIMEOUT_MS]
      | some (JsNumber.finite q) =>
        by_cases hq : q ≤ 0
        · norm_num [parseTimeoutMs, DEFAULT_TIMEOUT_MS, hq]
        · have h3 : (0:ℚ) < q := by linarith
          simp only [parseTimeoutMs, if_neg hq]
          constructor
          · exact lt_min h3 (by norm_num)
          · calc min q (15 * 60 * 1000) ≤ 15 * 60 * 1000 := min_le_right _ _
              _ = 900000 := by norm_num
    have hpp : 1000 ≤ parsePollIntervalMs raw ∧ parsePollIntervalMs raw ≤ 30000 := by
      match raw with
      | none => norm_num [parsePollIntervalMs, DEFAULT_POLL_INTERVAL_MS]
      | some (JsNumber.nan) => norm_num [parsePollIntervalMs, DEFAULT_POLL_INTERVAL_MS]
      | some (JsNumber.posInf) => norm_num [parsePollIntervalMs, DEFAULT_POLL_INTERVAL_MS]
      | some (JsNumber.negInf) => norm_num [parsePollIntervalMs, DEFAULT_POLL_INTERVAL_MS]
      | some (JsNumber.finite q) =>
        by_cases hq : q < 1000
        · norm_num [parsePollIntervalMs, DEFAULT_POLL_INTERVAL_MS, hq]
        · have h3 : (1000:ℚ) ≤ q := by linarith
          simp only [parsePollIntervalMs, if_neg hq]
          exact ⟨le_min h3 (by norm_num), min_le_right _ _⟩
    exact ⟨htt.1, htt.2, hpp.1, hpp.2⟩

/-- Witness for C2: each clamping case instantiated concretely. -/
theorem C2_clamping_witness :
    parseTimeoutMs (some (JsNumber.finite 0)) = 300000 ∧
    parseTimeoutMs (some (JsNumber.finite (-7))) = 300000 ∧
    parseTimeoutMs (some (JsNumber.nan)) = 300000 ∧
    parseTimeoutMs (some (JsNumber.finite 10000000)) = 900000 ∧
    parsePollIntervalMs (some (JsNumber.finite 100)) = 5000 ∧
    parsePollIntervalMs (some (JsNumber.nan)) = 5000 ∧
    parsePollIntervalMs (some (JsNumber.finite 60000)) = 30000 ∧
    (0 < parseTimeoutMs (some (JsNumber.finite 12345)) ∧
     parseTimeoutMs (some (JsNumber.finite 12345)) ≤ 900000 ∧
     1000 ≤ parsePollIntervalMs (some (JsNumber.finite 12345)) ∧
     parsePollIntervalMs (some (JsNumber.finite 12345)) ≤ 30000) :=
  ⟨C2_clamping.2.1 0 (by norm_num),
   C2_clamping.2.1 (-7) (by norm_num),
   C2_clamping.2.2.1 JsNumber.nan rfl,
   C2_clamping.2.2.2.1 10000000 (by norm_num),
   C2_clamping.2.2.2.2.2.1 100 (by norm_num),
   C2_clamping.2.2.2.2.2.2.1 JsNumber.nan rfl,
   C2_clamping.2.2.2.2.2.2.2.1 60000 (by norm_num),
   C2_clamping.2.2.2.2.2.2.2.2 (some (JsNumber.finite 12345))⟩

/-- Counterexample to C2 as stated: a below-floor `pollIntervalMs` of
100 yields the default 5000, not the floor 1000 the claim asserts. -/
theorem C2_counterexample :
    parsePollIntervalMs (some (JsNumber.finite 100)) = 5000 ∧ (5000 : ℚ) ≠ 1000 := by
  constructor
  · norm_num [parsePollIntervalMs, DEFAULT_POLL_INTERVAL_MS]
  · norm_num

/-! ## Claim C3 -/

/-- C3 (amended): the wait and wait-upload flows count a launch
successful only when the upstream HTTP status is 2xx and the decoded
body carries a truthy `jobId`; either failing condition yields the 502
upstream-error result carrying the upstream status code and raw body.
The plain generate flow, however, checks only the HTTP status: a 2xx
response is forwarded as a 200 success whether or not the body carries
a `jobId`. -/
theorem C3_launch_conditions :
    (∀ r : StartFetch,
       (r.ok = true → jobIdTruthy r.body = true →
          startJobStep r =
            StartStep.launched (jobIdString r.body) (taskUrlOf r.body (jobIdString r.body))) ∧
       (r.ok = false ∨ jobIdTruthy r.body = false →
          startJobStep r = StartStep.launchFailed r.status r.body)) ∧
    (∀ r : StartFetch,
       (r.ok = true → generateRespond r = (200, GenerateResp.success r.body)) ∧
       (r.ok = false → generateRespond r = (502, GenerateResp.upstreamErr r.status r.body))) := by
  constructor
  · intro r
    constructor
    · intro hok hid
      have h : ¬ (r.ok = false ∨ jobIdTruthy r.body = false) := by
        simp [hok, hid]
      simp [startJobStep, h]
    · intro h
      simp [startJobStep, h]
  · intro r
    constructor
    · intro hok
      simp [generateRespond, hok]
    · intro hok
      simp [generateRespond, hok]

/-- Witness for C3: both flows instantiated at concrete fetch results. -/
theorem C3_launch_conditions_witness :
    (startJobStep
        { ok := true, status := 200, body := some { jobId := some ("abc"), task_url := none } } =
      StartStep.launched (jobIdString (some { jobId := some ("abc"), task_url := none }))
        (taskUrlOf (some { jobId := some ("abc"), task_url := none })
          (jobIdString (some { jobId := some ("abc"), task_url := none })))) ∧
    (startJobStep { ok := true, status := 200, body := some { jobId := none, task_url := none } } =
      StartStep.launchFailed 200 (some { jobId := none, task_url := none })) ∧
    (generateRespond { ok := true, status := 200, body := none } =
      (200, GenerateResp.success none)) ∧
    (generateRespond { ok := false, status := 503, body := none } =
      (502, GenerateResp.upstreamErr 503 none)) :=
  ⟨(C3_launch_conditions.1 _).1 rfl (by decide),
   (C3_launch_conditions.1 _).2 (Or.inr (by decide)),
   (C3_launch_conditions.2 _).1 rfl,
   (C3_launch_conditions.2 _).2 rfl⟩

/-- Counterexample to C3 as stated: the plain generate flow returns a
200 success for a 2xx upstream response whose decoded body has no
`jobId` at all, instead of the claimed upstream error. -/
theorem C3_counterexample :
    generateRespond
        { ok := true, status := 200, body := some { jobId := none, task_url := none } } =
      (200, GenerateResp.success (some { jobId := none, task_url := none })) ∧
    jobIdTruthy (some { jobId := none, task_url := none }) = false := by
  constructor
  · rfl
  · rfl

/-! ## Claim C4 -/

/-- C4: the poll loop returns success exactly when a decoded status body
has `status == "done"` and its explicit success flag `ok === true`: a
body whose flag is false or absent is non-terminal (part 1), every
successful run ends on a body with both conditions (part 2), and a trace
with no such body makes the loop poll on until the time budget is
exhausted, ending in timeout (part 3). -/
theorem C4_success_condition :
    (∀ s : StatusBody, ¬ (s.status = some ("done") ∧ s.ok = some true) →
       isTerminalBody (some s) = false) ∧
    (∀ (timeoutMs interval : ℚ) (resps : List StatusFetch) (n : ℕ) (s : StatusBody),
       pollLoop timeoutMs interval resps = PollResult.success n s →
       s.status = some ("done") ∧ s.ok = some true) ∧
    (∀ (timeoutMs interval : ℚ) (resps : List StatusFetch),
       0 < interval →
       (∀ r ∈ resps, isTerminalBody r.body = false) →
       ⌈timeoutMs / interval⌉.toNat ≤ resps.length →
       pollLoop timeoutMs interval resps =
         PollResult.timeout (⌈timeoutMs / interval⌉.toNat)
           (((resps.take (⌈timeoutMs / interval⌉.toNat)).map
               (fun r => r.body)).getLastD none)) := by
  refine ⟨?_, ?_, ?_⟩
  · intro s hs
    simpa [isTerminalBody] using hs
  · intro timeoutMs interval resps n s h
    exact pollGo_success_done timeoutMs interval resps 0 0 none n s h
  · intro timeoutMs interval resps hI hnt hlen
    have h := pollGo_timeout_spec timeoutMs interval hI resps 0 0 none hnt
      (by simpa using hlen)
    simpa [pollLoop] using h

/-- Witness for C4: the three parts at concrete inputs — a done body
with an absent flag is non-terminal; a concrete successful run ends on
the done body; a never-done trace of three pending reads against budget
2500 and interval 1000 times out. -/
theorem C4_success_condition_witness :
    (isTerminalBody (some { status := some ("done"), ok := none, records := none }) = false) ∧
    (doneOkBody.status = some ("done") ∧ doneOkBody.ok = some true) ∧
    (pollLoop 3000 1000 [pendingFetch, pendingFetch, pendingFetch] =
      PollResult.timeout (⌈(3000 : ℚ) / 1000⌉.toNat)
        ((([pendingFetch, pendingFetch, pendingFetch].take
            (⌈(3000 : ℚ) / 1000⌉.toNat)).map (fun r => r.body)).getLastD none)) :=
  ⟨C4_success_condition.1 _ (by simp),
   C4_success_condition.2.1 300000 5000 [doneOkFetch] 1 doneOkBody
     (by norm_num [pollLoop, pollGo, isTerminalBody, doneOkFetch, doneOkBody]),
   C4_success_condition.2.2 3000 1000 [pendingFetch, pendingFetch, pendingFetch]
     (by norm_num)
     (by intro r hr; simp [pendingFetch, pendingBody, isTerminalBody] at hr ⊢; rw [hr]; simp)
     (by norm_num [Int.toNat_ofNat])⟩

/-! ## Claim C5 -/

/-- C5 (amended): with interval I and budget B, a trace of two
non-terminal reads followed by a successful done read returns success
after exactly 3 polls whenever B ≥ 3·I (part 1); a trace that never
reaches a successful done read, long enough to cover the budget,
returns the timeout failure after exactly ⌈B/I⌉ polls (part 2) — the
ceiling, not the floor of the claim, the two agreeing exactly when I
divides B. -/
theorem C5_poll_counts :
    (∀ (timeoutMs interval : ℚ) (r1 r2 r3 : StatusFetch) (s : StatusBody),
       0 < interval → 3 * interval ≤ timeoutMs →
       isTerminalBody r1.body = false → isTerminalBody r2.body = false →
       r3.body = some s → isTerminalBody r3.body = true →
       pollLoop timeoutMs interval [r1, r2, r3] = PollResult.success 3 s) ∧
    (∀ (timeoutMs interval : ℚ) (resps : List StatusFetch),
       0 < interval →
       (∀ r ∈ resps, isTerminalBody r.body = false) →
       ⌈timeoutMs / interval⌉.toNat ≤ resps.length →
       ∃ l, pollLoop timeoutMs interval resps =
         PollResult.timeout (⌈timeoutMs / interval⌉.toNat) l) := by
  constructor
  · intro timeoutMs interval r1 r2 r3 s hI hB h1 h2 hb3 ht3
    have c0 : (0 : ℚ) < timeoutMs := by linarith
    have c1 : (0 : ℚ) + interval < timeoutMs := by linarith
    have c2 : ((0 : ℚ) + interval) + interval < timeoutMs := by linarith
    rw [pollLoop,
      pollGo_cons_nonterminal timeoutMs interval r1 _ 0 0 none c0 h1,
      pollGo_cons_nonterminal timeoutMs interval r2 _ _ _ _ c1 h2,
      pollGo_cons_terminal timeoutMs interval r3 _ _ _ _ s c2 hb3 ht3]
  · intro timeoutMs interval resps hI hnt hlen
    have h := pollGo_timeout_spec timeoutMs interval hI resps 0 0 none hnt
      (by simpa using hlen)
    exact ⟨_, by simpa [pollLoop] using h⟩

/-- Witness for C5: both counts at concrete runs — pending, processing,
done with B = 300000 and I = 5000 gives success in 3 polls; three
pending reads with B = 3000 and I = 1000 give timeout after
⌈3000/1000⌉ = 3 polls. -/
theorem C5_poll_counts_witness :
    (pollLoop 300000 5000 [pendingFetch, processingFetch, doneOkFetch] =
      PollResult.success 3 doneOkBody) ∧
    (∃ l, pollLoop 3000 1000 [pendingFetch, pendingFetch, pendingFetch] =
      PollResult.timeout (⌈(3000 : ℚ) / 1000⌉.toNat) l) :=
  ⟨C5_poll_counts.1 300000 5000 pendingFetch processingFetch doneOkFetch doneOkBody
     (by norm_num) (by norm_num)
     (by simp [pendingFetch, pendingBody, isTerminalBody])
     (by simp [processingFetch, processingBody, isTerminalBody])
     rfl
     (by simp [doneOkFetch, doneOkBody, isTerminalBody]),
   C5_poll_counts.2 3000 1000 [pendingFetch, pendingFetch, pendingFetch]
     (by norm_num)
     (by intro r hr; simp [pendingFetch, pendingBody, isTerminalBody] at hr ⊢; rw [hr]; simp)
     (by norm_num [Int.toNat_ofNat])⟩

/-- Counterexample to C5 as stated: budget 2500 with interval 1000 (both
reachable verbatim through the clamps) and a never-done trace gives
exactly 3 polls, while the claim's floor formula predicts
⌊2500/1000⌋ = 2. -/
theorem C5_counterexample :
    pollLoop 2500 1000 [pendingFetch, pendingFetch, pendingFetch] =
      PollResult.timeout 3 (some pendingBody) ∧
    ⌊(2500 : ℚ) / 1000⌋ = 2 ∧
    (3 : ℕ) ≠ 2 ∧
    parseTimeoutMs (some (JsNumber.finite 2500)) = 2500 ∧
    parsePollIntervalMs (some (JsNumber.finite 1000)) = 1000 := by
  refine ⟨?_, ?_, by norm_num, ?_, ?_⟩
  · norm_num [pollLoop, pollGo, isTerminalBody, pendingFetch, pendingBody]
    simp
  · rw [Int.floor_eq_iff]; norm_num
  · norm_num [parseTimeoutMs, min_def]
  · norm_num [parsePollIntervalMs, min_def]

/-! ## Claim C6 -/

/-- C6 (amended): for every request with `customMode = false`,
validation succeeds iff the prompt is non-blank — non-empty after
trimming whitespace, the amendment — and at most 400 characters long
(part 1); and the outcome depends only on the prompt: title, style,
model, instrumental and negativeTags have no effect (part 2). -/
theorem C6_noncustom_validation :
    (∀ v : GenerationRequest, v.customMode = false →
       (validationPasses v = true ↔ (jsTrim v.prompt ≠ "" ∧ v.prompt.length ≤ 400))) ∧
    (∀ v w : GenerationRequest, v.customMode = false → w.customMode = false →
       v.prompt = w.prompt → validationPasses v = validationPasses w) := by
  constructor
  · intro v hv
    by_cases h1 : jsTrim v.prompt = "" <;> by_cases h2 : v.prompt.length > 400 <;>
      (simp [validationPasses, validateIssues, hv, h1, h2]; try omega)
  · intro v w hv hw hp
    simp [validationPasses, validateIssues, hv, hw, hp]

/-- Witness for C6: a plain prompt passes, and changing every other
field leaves the outcome unchanged. -/
theorem C6_noncustom_validation_witness :
    validationPasses simpleReq = true ∧
    validationPasses simpleReq = validationPasses simpleReqVariant :=
  ⟨(C6_noncustom_validation.1 simpleReq rfl).mpr (by constructor <;> decide),
   C6_noncustom_validation.2 simpleReq simpleReqVariant rfl rfl rfl⟩

/-- Counterexample to C6 as stated: a prompt consisting of one space is
non-empty and within the length cap, yet validation fails (the code
requires the prompt to be non-empty after trimming). -/
theorem C6_counterexample :
    blankPromptReq.customMode = false ∧
    blankPromptReq.prompt ≠ "" ∧
    blankPromptReq.prompt.length ≤ 400 ∧
    validationPasses blankPromptReq = false := by
  refine ⟨rfl, by decide, by decide, by decide⟩

/-! ## Claim C7 -/

/-- C7: when the poll loop exhausts its budget, the wait flow returns an
HTTP 408 response whose body carries the jobId, the status-poll URL and
the last-observed decoded status body (part 1: the 408 body is built
from exactly those values; part 2: end-to-end over a non-terminal
response trace, the `lastResponse` field is the decoded body of the
last response polled). -/
theorem C7_timeout_body :
    (∀ (jobId taskUrl : String) (n : ℕ) (last : Option StatusBody),
       waitFinish jobId taskUrl (PollResult.timeout n last) =
         (408,
           WaitResponse.timeoutErr
             { ok := false
               status := lastStatusString last
               message := "Timeout waiting for music generation to finish"
               jobId := jobId
               task_url := taskUrl
               lastResponse := last })) ∧
    (∀ (timeoutMs interval : ℚ) (resps : List StatusFetch) (jobId taskUrl : String),
       0 < interval →
       (∀ r ∈ resps, isTerminalBody r.body = false) →
       ⌈timeoutMs / interval⌉.toNat ≤ resps.length →
       waitFinish jobId taskUrl (pollLoop timeoutMs interval resps) =
         (408,
           WaitResponse.timeoutErr
             { ok := false
               status := lastStatusString
                 (((resps.take (⌈timeoutMs / interval⌉.toNat)).map
                     (fun r => r.body)).getLastD none)
               message := "Timeout waiting for music generation to finish"
               jobId := jobId
               task_url := taskUrl
               lastResponse := ((resps.take (⌈timeoutMs / interval⌉.toNat)).map
                   (fun r => r.body)).getLastD none })) := by
  constructor
  · intro jobId taskUrl n last
    rfl
  · intro timeoutMs interval resps jobId taskUrl hI hnt hlen
    have h := pollGo_timeout_spec timeoutMs interval hI resps 0 0 none hnt
      (by simpa using hlen)
    simp only [sub_zero] at h
    rw [pollLoop, h]
    rfl

/-- Witness for C7: a concrete never-done run against budget 3000 and
interval 1000 returns 408 carrying the jobId, the poll URL and the
pending body last seen. -/
theorem C7_timeout_body_witness :
    waitFinish ("job-1") ("https://api.paxsenix.org/task/job-1")
        (pollLoop 3000 1000 [pendingFetch, pendingFetch, pendingFetch]) =
      (408,
        WaitResponse.timeoutErr
          { ok := false
            status := "pending"
            message := "Timeout waiting for music generation to finish"
            jobId := "job-1"
            task_url := "https://api.paxsenix.org/task/job-1"
            lastResponse := some pendingBody }) := by
  rw [C7_timeout_body.2 3000 1000 [pendingFetch, pendingFetch, pendingFetch] _ _
    (by norm_num)
    (by intro r hr; simp [pendingFetch, pendingBody, isTerminalBody] at hr ⊢; rw [hr]; simp)
    (by norm_num [Int.toNat_ofNat])]
  have h3 : (⌈(3000 : ℚ) / 1000⌉).toNat = 3 := by norm_num; rfl
  rw [h3]
  decide

/-! ## Helper lemmas about the batch upload -/

/-- Length of the batch result equals the number of records. -/
theorem batchUploads_length (env : ℕ → KieFetch) (records : List PaxRecord) :
    (batchUploads env records).length = records.length := by
  simp [batchUploads]

/-- The batch entry at index i is the per-record upload of record i. -/
theorem batchUploads_get (env : ℕ → KieFetch) (records : List PaxRecord)
    (i : ℕ) (hi : i < records.length) (hi2 : i < (batchUploads env records).length) :
    (batchUploads env records).get ⟨i, hi2⟩ = uploadRecord env i (records.get ⟨i, hi⟩) := by
  simp [batchUploads, List.getElem_mapIdx]

/-- A record with an audio URL whose upload fails upstream yields the
per-item failure entry with the upstream status and body. -/
theorem uploadRecord_err (env : ℕ → KieFetch) (idx : ℕ) (r : PaxRecord)
    (hu : audioUrlOf r ≠ "") (hok : (env idx).ok = false) :
    uploadRecord env idx r = UploadEntry.failUpload idx (env idx).status (env idx).body := by
  simp [uploadRecord, kieUploadFromUrl, hu, hok]

/-- A record with an audio URL whose upload succeeds yields the ok
entry carrying the download URL and metadata of the upstream body. -/
theorem uploadRecord_ok (env : ℕ → KieFetch) (idx : ℕ) (r : PaxRecord)
    (hu : audioUrlOf r ≠ "") (hok : (env idx).ok = true) :
    uploadRecord env idx r =
      UploadEntry.success idx (audioUrlOf r)
        { downloadUrl := ((env idx).body.bind (fun x => x.data)).bind (fun d => d.downloadUrl)
          fileSizeBytes := bytesOfResult (env idx).body
          fileSizeMB := if bytesOfResult (env idx).body ≠ 0 then
            bytesToMb (bytesOfResult (env idx).body) else 0
          mimeType := ((env idx).body.bind (fun x => x.data)).bind (fun d => d.mimeType)
          fileName := ((env idx).body.bind (fun x => x.data)).bind (fun d => d.fileName)
          filePath := ((env idx).body.bind (fun x => x.data)).bind (fun d => d.filePath)
          uploadedAt := ((env idx).body.bind (fun x => x.data)).bind (fun d => d.uploadedAt) } := by
  have hok2 : ¬ (env idx).ok = false := by simp [hok]
  simp [uploadRecord, kieUploadFromUrl, hu, hok2]

/-! ## Claim C8 -/

/-- C8: the wait-upload batch re-hosting step over N records, each
carrying an audio URL, never fails the whole request — the flow
responds 200 whatever the upload outcomes (part 1); the uploads array
always has length N (part 2); and in original index order, the entry
at index i is an ok:false entry embedding the upstream status and body
when the upload of record i failed, and an ok:true entry with the
download URL when it succeeded (part 3). -/
theorem C8_batch_upload :
    ∀ (env : ℕ → KieFetch) (records : List PaxRecord),
      (∀ r ∈ records, audioUrlOf r ≠ "") →
      ((∀ (jobId taskUrl : String) (s : StatusBody),
          (waitUploadRespond env jobId taskUrl s).1 = 200) ∧
       (batchUploads env records).length = records.length ∧
       (∀ (i : ℕ) (hi : i < records.length) (hi2 : i < (batchUploads env records).length),
          (batchUploads env records).get ⟨i, hi2⟩ =
            (if (env i).ok = false then
              UploadEntry.failUpload i (env i).status (env i).body
            else
              UploadEntry.success i (audioUrlOf (records.get ⟨i, hi⟩))
                { downloadUrl := ((env i).body.bind (fun x => x.data)).bind
                    (fun d => d.downloadUrl)
                  fileSizeBytes := bytesOfResult (env i).body
                  fileSizeMB := if bytesOfResult (env i).body ≠ 0 then
                    bytesToMb (bytesOfResult (env i).body) else 0
                  mimeType := ((env i).body.bind (fun x => x.data)).bind (fun d => d.mimeType)
                  fileName := ((env i).body.bind (fun x => x.data)).bind (fun d => d.fileName)
                  filePath := ((env i).body.bind (fun x => x.data)).bind (fun d => d.filePath)
                  uploadedAt := ((env i).body.bind (fun x => x.data)).bind
                    (fun d => d.uploadedAt) }))) := by
  intro env records hurl
  refine ⟨fun jobId taskUrl s => rfl, batchUploads_length env records, ?_⟩
  intro i hi hi2
  rw [batchUploads_get env records i hi hi2]
  have hu : audioUrlOf (records.get ⟨i, hi⟩) ≠ "" :=
    hurl _ (records.get_mem i hi)
  by_cases hok : (env i).ok = false
  · rw [uploadRecord_err env i _ hu hok, if_pos hok]
  · have hok2 : (env i).ok = true := by simpa using hok
    rw [uploadRecord_ok env i _ hu hok2, if_neg hok]

/-- Witness for C8: three records with upload 1 failing (HTTP 500) —
the flow answers 200, the array has length 3, entry 1 is the recorded
failure with status 500, and entries 0 and 2 carry the download URL. -/
theorem C8_batch_upload_witness :
    (waitUploadRespond envFailAt1 ("job-1") ("u")
        { status := some ("done"), ok := some true, records := some [rec1, rec1, rec3] }).1 =
      200 ∧
    (batchUploads envFailAt1 [rec1, rec1, rec3]).length = 3 ∧
    (batchUploads envFailAt1 [rec1, rec1, rec3]).get ⟨1, by decide⟩ =
      UploadEntry.failUpload 1 500 none ∧
    (batchUploads envFailAt1 [rec1, rec1, rec3]).get ⟨2, by decide⟩ =
      UploadEntry.success 2 ("https://cdn/3.mp3")
        { downloadUrl := some ("https://kie/dl/f.mp3"), fileSizeBytes := 0, fileSizeMB := 0,
          mimeType := some ("audio/mpeg"), fileName := some ("f.mp3"),
          filePath := some ("music/paxsenix/f.mp3"), uploadedAt := none } := by
  have h := C8_batch_upload envFailAt1 [rec1, rec1, rec3] (by decide)
  refine ⟨h.1 ("job-1") ("u") _, ?_, ?_, ?_⟩
  · rw [h.2.1]
    rfl
  · rw [h.2.2 1 (by decide) (by decide)]
    decide
  · rw [h.2.2 2 (by decide) (by decide)]
    norm_num [envFailAt1, kieOkFetch, rec3, audioUrlOf, bytesOfResult]

/-! ## Claim C10 -/

/-- C10: a done-job record whose `audio_url` field is missing (or not a
string) yields the ok:false entry with message "missing audio_url" and
its record index, no upload call is made for it — the entry does not
depend on the upload environment — and every other record is processed
normally: each batch entry is exactly the per-record upload of its own
record at its own index. -/
theorem C10_missing_audio_url :
    ∀ (env env2 : ℕ → KieFetch) (records : List PaxRecord) (i : ℕ)
      (hi : i < records.length) (hi2 : i < (batchUploads env records).length),
      (records.get ⟨i, hi⟩).audio_url = none →
      ((batchUploads env records).get ⟨i, hi2⟩ =
         UploadEntry.failMissing ("missing audio_url") i ∧
       uploadRecord env i (records.get ⟨i, hi⟩) = uploadRecord env2 i (records.get ⟨i, hi⟩)) ∧
      (∀ (j : ℕ) (hj : j < records.length) (hj2 : j < (batchUploads env records).length),
         (batchUploads env records).get ⟨j, hj2⟩ = uploadRecord env j (records.get ⟨j, hj⟩)) := by
  intro env env2 records i hi hi2 hmiss
  have hb : audioUrlOf (records.get ⟨i, hi⟩) = "" := by
    simp only [audioUrlOf, hmiss, Option.getD_none]
  refine ⟨⟨?_, ?_⟩, ?_⟩
  · rw [batchUploads_get env records i hi hi2]
    simp only [uploadRecord, hb]
    simp
  · simp only [uploadRecord, hb]
    simp
  · intro j hj hj2
    exact batchUploads_get env records j hj hj2

/-- Witness for C10: the middle record of three lacks `audio_url`; its
entry is the missing-audio failure, it is insensitive to the upload
environment, and the neighbouring entries are the normal per-record
results. -/
theorem C10_missing_audio_url_witness :
    ((batchUploads envAllOk [rec1, recNoUrl, rec3]).get ⟨1, by decide⟩ =
       UploadEntry.failMissing ("missing audio_url") 1 ∧
     uploadRecord envAllOk 1 recNoUrl = uploadRecord envAllFail 1 recNoUrl) ∧
    (∀ (j : ℕ) (hj : j < ([rec1, recNoUrl, rec3] : List PaxRecord).length)
       (hj2 : j < (batchUploads envAllOk [rec1, recNoUrl, rec3]).length),
       (batchUploads envAllOk [rec1, recNoUrl, rec3]).get ⟨j, hj2⟩ =
         uploadRecord envAllOk j (([rec1, recNoUrl, rec3] : List PaxRecord).get ⟨j, hj⟩)) :=
  C10_missing_audio_url envAllOk envAllFail [rec1, recNoUrl, rec3] 1 (by decide) (by decide) rfl

/-! ## Claim C9 -/

/-- C9 (amended): the cover callback receiver makes exactly one upload
call — for the first result item's audio URL, with the fixed upload
path and a filename derived from the task and item ids — if and only if
the envelope has code 200, callbackType "complete", a non-empty item
list AND (the amendment) the first item carries a non-empty audio URL
(parts 1 and 2); the receiver answers HTTP 200 in every case (part 3),
and a failing embedded upload is reported inline in that 200 body
(part 4). -/
theorem C9_cover_callback :
    (∀ p : CoverEnvelope,
       (∃ c, coverUploadCall p = some c) ↔
       (p.code = some 200 ∧ callbackTypeOf p = some ("complete") ∧
        ∃ first rest u, coverItems p = first :: rest ∧
          first.audio_url = some u ∧ u ≠ "")) ∧
    (∀ (p : CoverEnvelope) (c : UploadCall), coverUploadCall p = some c →
       c.uploadPath = "music/cover-audio" ∧
       (∃ first rest, coverItems p = first :: rest ∧
          first.audio_url = some c.fileUrl ∧
          c.fileName = (p.data.bind (fun d => d.task_id)).getD ("task") ++ "-" ++
            first.id.getD ("track") ++ ".mp3")) ∧
    (∀ (env : KieFetch) (p : CoverEnvelope), (coverHandler env p).1 = 200) ∧
    (∀ (env : KieFetch) (p : CoverEnvelope) (c : UploadCall),
       coverUploadCall p = some c → env.ok = false →
       (coverHandler env p).2.kieUploadedFirstTrack =
         some (CoverUploaded.failed (coverKieUploadFromUrl env))) := by
  refine ⟨?_, ?_, ?_, ?_⟩
  · intro p
    constructor
    · rintro ⟨c, hc⟩
      simp only [coverUploadCall] at hc
      split_ifs at hc with hcond
      · obtain ⟨h1, h2, h3⟩ := hcond
        refine ⟨h1, h2, ?_⟩
        cases hitems : coverItems p with
        | nil => exact absurd hitems h3
        | cons first rest =>
          simp only [hitems] at hc
          cases hau : first.audio_url with
          | none =>
            simp only [hau] at hc
            exact Option.noConfusion hc
          | some u =>
            simp only [hau] at hc
            split_ifs at hc with hu
            exact ⟨first, rest, u, rfl, hau, hu⟩
    · rintro ⟨h1, h2, first, rest, u, hitems, hau, hu⟩
      refine ⟨{ fileUrl := u, uploadPath := "music/cover-audio",
                fileName := (p.data.bind (fun d => d.task_id)).getD ("task") ++ "-" ++
                  first.id.getD ("track") ++ ".mp3" }, ?_⟩
      simp only [coverUploadCall, hitems, hau, if_neg hu]
      rw [if_pos ⟨h1, h2, by simp⟩]
  · intro p c hc
    simp only [coverUploadCall] at hc
    split_ifs at hc with hcond
    · obtain ⟨h1, h2, h3⟩ := hcond
      cases hitems : coverItems p with
      | nil => exact absurd hitems h3
      | cons first rest =>
        simp only [hitems] at hc
        cases hau : first.audio_url with
        | none =>
          simp only [hau] at hc
          exact Option.noConfusion hc
        | some u =>
          simp only [hau] at hc
          split_ifs at hc with hu
          obtain rfl := Option.some.inj hc
          exact ⟨rfl, first, rest, rfl, hau, rfl⟩
  · intro env p
    cases hc : coverUploadCall p with
    | none => simp [coverHandler, hc]
    | some c =>
      simp only [coverHandler, hc]
      split_ifs <;> rfl
  · intro env p c hc hok
    have hup : (coverKieUploadFromUrl env).ok = false := by
      simp [coverKieUploadFromUrl, hok]
    simp only [coverHandler, hc]
    rw [if_neg (by simp [hup])]

/-- Witness for C9: the complete envelope with an audio URL yields an
upload call; the receiver answers 200 for it and for a text envelope;
and with a failing upload environment the failure is reported inline in
the 200 body. -/
theorem C9_cover_callback_witness :
    (∃ c, coverUploadCall coverCompleteEnv = some c) ∧
    (coverHandler kieFailFetch coverCompleteEnv).1 = 200 ∧
    (coverHandler kieFailFetch coverTextEnv).1 = 200 ∧
    (coverHandler kieFailFetch coverCompleteEnv).2.kieUploadedFirstTrack =
      some (CoverUploaded.failed (coverKieUploadFromUrl kieFailFetch)) := by
  refine ⟨?_, C9_cover_callback.2.2.1 kieFailFetch coverCompleteEnv,
    C9_cover_callback.2.2.1 kieFailFetch coverTextEnv, ?_⟩
  · exact (C9_cover_callback.1 coverCompleteEnv).mpr
      ⟨rfl, rfl, coverItemT1, [], "https://x/a.mp3", rfl, rfl, by decide⟩
  · exact C9_cover_callback.2.2.2 kieFailFetch coverCompleteEnv
      { fileUrl := "https://x/a.mp3", uploadPath := "music/cover-audio",
        fileName := "task-9-t1.mp3" }
      (by decide) rfl

/-- Counterexample to C9 as stated: an envelope with code 200, callback
type complete and a non-empty item list whose first item has no audio
URL triggers zero upload calls, although the condition of the claim holds. -/
theorem C9_counterexample :
    coverNoAudioEnv.code = some 200 ∧
    callbackTypeOf coverNoAudioEnv = some ("complete") ∧
    coverItems coverNoAudioEnv ≠ [] ∧
    coverUploadCall coverNoAudioEnv = none := by
  refine ⟨rfl, rfl, by decide, by decide⟩

end MelodyMaestro
